import Mathlib

/-!
# Crispex core pipeline — shallow embedding and verification

A shallow embedding of the candidate-generation and scoring pipeline of the
Crispex CRISPR guide designer (`crispex.core`): the `Guide` entity
(`guide.py`), the motif scanner (`extract.py`), the efficiency heuristic
(`predict.py`), the off-target estimator (`offtarget.py`) and the ranker
(`rank.py`).  DNA strings are modelled as `List Char`, Python floats as `ℚ`,
Python ints as `ℤ`, Python dicts as insertion-ordered association lists, and
fallible code (index errors, division by zero) as `Option`.
-/

namespace Crispex

/-- Python `str.upper` on a single character (ASCII case mapping, which is all
that matters for nucleotide strings). -/
def pyUpper (c : Char) : Char :=
  if 'a' ≤ c ∧ c ≤ 'z' then Char.ofNat (c.toNat - 32) else c

/-- Complement of one nucleotide, as Biopython's complement table does it for
upper-case IUPAC codes; characters outside the table are left unchanged. -/
def pyComplement (c : Char) : Char :=
  if c = 'A' then 'T'
  else if c = 'T' then 'A'
  else if c = 'G' then 'C'
  else if c = 'C' then 'G'
  else if c = 'U' then 'A'
  else if c = 'R' then 'Y'
  else if c = 'Y' then 'R'
  else if c = 'K' then 'M'
  else if c = 'M' then 'K'
  else if c = 'B' then 'V'
  else if c = 'V' then 'B'
  else if c = 'D' then 'H'
  else if c = 'H' then 'D'
  else c

/-- `str(Seq(s).reverse_complement())`: complement every base, then reverse. -/
def reverseComplement (s : List Char) : List Char :=
  (s.map pyComplement).reverse

/-- `Guide.calculate_gc_content`: GC percentage of a sequence
(`0.0` for the empty sequence). -/
def calculate_gc_content (s : List Char) : ℚ :=
  if s = [] then 0
  else ((s.count 'G' + s.count 'C' : ℕ) : ℚ) / (s.length : ℚ) * 100

/-- A Python dict from mismatch count to off-target count, modelled as an
insertion-ordered association list. -/
abbrev OTMap := List (ℕ × ℤ)

/-- `d.get(k, 0)`: lookup with default `0`. -/
def otGet (d : OTMap) (k : ℕ) : ℤ :=
  match d.find? (fun p => p.1 = k) with
  | some p => p.2
  | none => 0

/-- `d[k] = v`: overwrite the first binding of `k` in place, or append a new
binding at the end, exactly as a Python dict keeps insertion order. -/
def otSet (d : OTMap) (k : ℕ) (v : ℤ) : OTMap :=
  match d with
  | [] => [(k, v)]
  | p :: rest => if p.1 = k then (k, v) :: rest else p :: otSet rest k v

/-- The keys of the mapping, in insertion order. -/
def otKeys (d : OTMap) : List ℕ := d.map Prod.fst

/-- The `Guide` dataclass (`crispex/core/guide.py`).  `end` is a Lean keyword,
so that field is spelled `end_`. -/
structure Guide where
  sequence : List Char
  pam : List Char
  chromosome : String
  start : ℤ
  end_ : ℤ
  strand : Char
  efficiency_score : ℚ := 0
  off_targets : OTMap := [(0, 0), (1, 0), (2, 0), (3, 0)]
  gc_content : ℚ := 0
  gene_name : Option String := none
  exon : Option ℤ := none
  deriving DecidableEq, Repr

/-- `Guide.passes_quality_filters`: GC bounds, per-base homopolymer runs,
and the poly-T veto, in the order the code checks them. -/
def passes_quality_filters (g : Guide) (min_gc : ℚ := 40) (max_gc : ℚ := 60)
    (max_homopolymer : ℕ := 4) : Bool :=
  if g.gc_content < min_gc ∨ g.gc_content > max_gc then false
  else if ['A', 'T', 'G', 'C'].any
      (fun b => decide (List.replicate max_homopolymer b <:+: g.sequence)) then false
  else if ['T', 'T', 'T', 'T'] <:+: g.sequence then false
  else true

/-- One regex-scan step of `re.finditer(r'[ATCG]GG', sequence)`: at each
position try to match the 3-character window; a match is recorded and the scan
resumes after it (matches do not overlap), otherwise the scan advances one
character. -/
def pamScan : List Char → ℕ → List ℕ
  | [], _ => []
  | [_], _ => []
  | [_, _], _ => []
  | c1 :: c2 :: c3 :: rest, i =>
      if (c1 = 'A' ∨ c1 = 'T' ∨ c1 = 'C' ∨ c1 = 'G') ∧ c2 = 'G' ∧ c3 = 'G' then
        i :: pamScan rest (i + 3)
      else
        pamScan (c2 :: c3 :: rest) (i + 1)

/-- `find_pam_sites(sequence, pam_type)`: upper-case the input; for `SpCas9`
scan for `[ATCG]GG`, for any other variant no branch runs and the list stays
empty. -/
def find_pam_sites (sequence : List Char) (pam_type : String := "SpCas9") : List ℕ :=
  let s := sequence.map pyUpper
  if pam_type = "SpCas9" then pamScan s 0 else []

/-- `extract_guide_sequence(sequence, pam_position, guide_length, strand)`.
Python slices clamp, which `drop`/`take` reproduce; a window of the wrong
length or with a symbol outside `ATCG` yields `None`. -/
def extract_guide_sequence (sequence : List Char) (pam_position : ℕ)
    (guide_length : ℕ := 20) (strand : Char := '+') : Option (List Char) :=
  let s := sequence.map pyUpper
  let guide_seq : Option (List Char) :=
    if strand = '+' then
      if pam_position < guide_length then none
      else some ((s.drop (pam_position - guide_length)).take guide_length)
    else
      let guide_start := pam_position + 3
      if guide_start + guide_length > s.length then none
      else some (reverseComplement ((s.drop guide_start).take guide_length))
  match guide_seq with
  | none => none
  | some g =>
      if g.length ≠ guide_length then none
      else if g.all (fun b => b = 'A' ∨ b = 'T' ∨ b = 'C' ∨ b = 'G') then some g
      else none

/-- Python truthiness of the optional `gene_name` argument: `if gene_name:`
only fires for a present, non-empty string. -/
def truthyStr (s : Option String) : Option String :=
  match s with
  | some t => if t = "" then none else some t
  | none => none

/-- The body of the forward-strand loop of `extract_guides` for one PAM hit:
extract the window, build the `Guide` with its genomic coordinates and GC
content, and apply the quality filters when requested.  `s` is the already
upper-cased input. -/
def plusGuideAt (s : List Char) (chromosome : String) (start_position : ℤ)
    (gene_name : Option String) (guide_length : ℕ) (apply_filters : Bool)
    (pam_pos : ℕ) : Option Guide :=
  match extract_guide_sequence s pam_pos guide_length '+' with
  | none => none
  | some guide_seq =>
      let g : Guide :=
        { sequence := guide_seq
          pam := (s.drop pam_pos).take 3
          chromosome := chromosome
          start := start_position + pam_pos - guide_length
          end_ := start_position + pam_pos - 1
          strand := '+'
          efficiency_score := 0
          off_targets := [(0, 0), (1, 0), (2, 0), (3, 0)]
          gc_content := calculate_gc_content guide_seq
          gene_name := truthyStr gene_name
          exon := none }
      if apply_filters then
        if passes_quality_filters g then some g else none
      else some g

/-- The body of the reverse-strand loop of `extract_guides` for one PAM hit at
index `pam_pos` of the reverse complement `rc` of the upper-cased input `s`:
the window is extracted from `rc` by the forward-strand rule, and the genomic
coordinates come from `original_pam_pos = len(s) - pam_pos - 3`. -/
def minusGuideAt (s rc : List Char) (chromosome : String) (start_position : ℤ)
    (gene_name : Option String) (guide_length : ℕ) (apply_filters : Bool)
    (pam_pos : ℕ) : Option Guide :=
  let original_pam_pos : ℤ := (s.length : ℤ) - pam_pos - 3
  match extract_guide_sequence rc pam_pos guide_length '+' with
  | none => none
  | some guide_seq =>
      let g : Guide :=
        { sequence := guide_seq
          pam := (rc.drop pam_pos).take 3
          chromosome := chromosome
          start := start_position + original_pam_pos + 4
          end_ := start_position + original_pam_pos + 3 + guide_length
          strand := '-'
          efficiency_score := 0
          off_targets := [(0, 0), (1, 0), (2, 0), (3, 0)]
          gc_content := calculate_gc_content guide_seq
          gene_name := truthyStr gene_name
          exon := none }
      if apply_filters then
        if passes_quality_filters g then some g else none
      else some g

/-- `extract_guides`: upper-case the input, scan the forward strand, then scan
the reverse complement, concatenating the surviving guides in scan order. -/
def extract_guides (sequence : List Char) (chromosome : String := "chr1")
    (start_position : ℤ := 1) (gene_name : Option String := none)
    (pam_type : String := "SpCas9") (guide_length : ℕ := 20)
    (apply_filters : Bool := true) : List Guide :=
  (find_pam_sites (sequence.map pyUpper) pam_type).filterMap
      (plusGuideAt (sequence.map pyUpper) chromosome start_position gene_name
        guide_length apply_filters) ++
  (find_pam_sites (reverseComplement (sequence.map pyUpper)) pam_type).filterMap
      (minusGuideAt (sequence.map pyUpper) (reverseComplement (sequence.map pyUpper))
        chromosome start_position gene_name guide_length apply_filters)

/-! ## Efficiency predictor (`predict.py`) -/

/-- `AzimuthPredictor._score_gc_content`. -/
def score_gc_content (gc_content : ℚ) : ℚ :=
  let deviation := |gc_content - 50|
  if deviation ≤ 10 then 10 - deviation else -((deviation - 10) * (1 / 2))

/-- `AzimuthPredictor._score_position_preferences`.  `sequence[0]` raises on an
empty string, hence the `Option`; the accesses at indices 18 and 19 are guarded
by the length test exactly as in the code. -/
def score_position_preferences (sequence : List Char) : Option ℚ :=
  match sequence with
  | [] => none
  | c0 :: _ =>
      some ((if 20 ≤ sequence.length then
               (if sequence.getD 18 ' ' = 'G' then 2 else 0) +
               (if sequence.getD 19 ' ' = 'G' then 2 else 0)
             else 0) +
            (if c0 = 'C' then 1 else 0))

/-- `AzimuthPredictor._score_seed_region`: the divisor `len(seed_sequence)`
raises on an empty seed, hence the `Option`. -/
def score_seed_region (seed_sequence : List Char) : Option ℚ :=
  if seed_sequence.length = 0 then none
  else
    let gc_ratio := ((seed_sequence.count 'G' + seed_sequence.count 'C' : ℕ) : ℚ) /
      (seed_sequence.length : ℚ)
    some ((if 2 / 5 ≤ gc_ratio ∧ gc_ratio ≤ 3 / 5 then 3 else -2) +
          (if ['T', 'T', 'T'] <:+: seed_sequence then -5 else 0))

/-- `AzimuthPredictor._score_pam_proximal`: the divisor `len(pam_proximal)`
raises on an empty slice, hence the `Option`. -/
def score_pam_proximal (pam_proximal : List Char) : Option ℚ :=
  if pam_proximal.length = 0 then none
  else
    let gc_ratio := ((pam_proximal.count 'G' + pam_proximal.count 'C' : ℕ) : ℚ) /
      (pam_proximal.length : ℚ)
    some (if 1 / 2 ≤ gc_ratio then 2 else -1)

/-- `AzimuthPredictor._penalize_homopolymers`: the three run-length penalties
accumulate per base. -/
def penalize_homopolymers (sequence : List Char) : ℚ :=
  (['A', 'T', 'G', 'C'].map (fun b =>
    (if List.replicate 3 b <:+: sequence then -2 else 0) +
    (if List.replicate 4 b <:+: sequence then -5 else 0) +
    (if List.replicate 5 b <:+: sequence then -10 else (0 : ℚ)))).sum

/-- Round half to even at integer precision, as Python's `round` does. -/
def pyRoundInt (q : ℚ) : ℤ :=
  if q - ⌊q⌋ < 1 / 2 then ⌊q⌋
  else if q - ⌊q⌋ > 1 / 2 then ⌊q⌋ + 1
  else if ⌊q⌋ % 2 = 0 then ⌊q⌋ else ⌊q⌋ + 1

/-- Python `round(x, 1)`. -/
def pyRound1 (q : ℚ) : ℚ := (pyRoundInt (q * 10) : ℚ) / 10

/-- `AzimuthPredictor.predict_efficiency`, as a function of the guide's
`gc_content` field and its `sequence`.  The unguarded `sequence[19]` access in
feature 6 raises for sequences shorter than 20, hence the `Option`; Python's
clamping slices `[:12]` and `[-8:]` are `take`/`drop`. -/
def predict_efficiency (gc_content : ℚ) (sequence : List Char) : Option ℚ :=
  (score_position_preferences sequence).bind fun position_score =>
  (score_seed_region (sequence.take 12)).bind fun seed_score =>
  (score_pam_proximal (sequence.drop (sequence.length - 8))).bind fun pam_proximal_score =>
  if 19 < sequence.length then
    some (pyRound1 (max 0 (min 100 (50 + score_gc_content gc_content + position_score +
      seed_score + pam_proximal_score + penalize_homopolymers sequence +
      (if sequence.getD 19 ' ' = 'G' then 2 else 0)))))
  else none

/-- The running total of `predict_efficiency` before clamping and rounding,
with the partial feature scores read off through `Option.getD` (for sequences
on which every feature is defined, `predict_efficiency` returns exactly the
clamped, rounded value of this total). -/
def rawScore (gc_content : ℚ) (sequence : List Char) : ℚ :=
  50 + score_gc_content gc_content +
    (score_position_preferences sequence).getD 0 +
    (score_seed_region (sequence.take 12)).getD 0 +
    (score_pam_proximal (sequence.drop (sequence.length - 8))).getD 0 +
    penalize_homopolymers sequence +
    (if sequence.getD 19 ' ' = 'G' then 2 else 0)

/-! ## Off-target estimator (`offtarget.py`) -/

/-- Python `int()` truncation of a rational toward zero. -/
def pyInt (q : ℚ) : ℤ := if q < 0 then ⌈q⌉ else ⌊q⌋

/-- `OffTargetSearcher._estimate_count` with the `random.randint(-2, 2)` draw
made an explicit argument `noise`. -/
def estimate_count (min_val max_val : ℤ) (noise : ℤ) : ℤ :=
  pyInt (((min_val : ℚ) + max_val) / 2 + noise)

/-- The complexity value computed by `OffTargetSearcher._calculate_complexity`
when no division fails: distinct 4-mers over `min(256, len - 3)`, scaled down
for GC extremes and for each base with a homopolymer run of four. -/
def complexityVal (sequence : List Char) : ℚ :=
  let kmers := ((List.range (sequence.length + 1 - 4)).map
    (fun i => (sequence.drop i).take 4)).dedup
  let complexity := (kmers.length : ℚ) / ((min 256 ((sequence.length : ℤ) - 3) : ℤ) : ℚ)
  let gc_ratio := ((sequence.count 'G' + sequence.count 'C' : ℕ) : ℚ) /
    (sequence.length : ℚ)
  let complexity :=
    if gc_ratio < 3 / 10 ∨ gc_ratio > 7 / 10 then complexity * (8 / 10) else complexity
  ['A', 'T', 'G', 'C'].foldl (fun acc b =>
    if List.replicate 4 b <:+: sequence then acc * (7 / 10) else acc) complexity

/-- `OffTargetSearcher._calculate_complexity`.  `none` models the
`ZeroDivisionError` raised when `min(256, len - 3) == 0` (length exactly 3) or
when `len == 0` (the GC-ratio divisor). -/
def calculate_complexity (sequence : List Char) : Option ℚ :=
  if min 256 ((sequence.length : ℤ) - 3) = 0 then none
  else if sequence.length = 0 then none
  else some (complexityVal sequence)

/-- `OffTargetSearcher.search_off_targets` with the three `randint` draws made
explicit arguments, one per `_estimate_count` call. -/
def search_off_targets (guide : Guide) (noise1 noise2 noise3 : ℤ) : Option OTMap :=
  (calculate_complexity guide.sequence).bind fun complexity =>
    if complexity < 1 / 2 then
      some (otSet (otSet (otSet [(0, 1), (1, 0), (2, 0), (3, 0)]
        1 (estimate_count 5 15 noise1))
        2 (estimate_count 20 50 noise2)) 3 (estimate_count 80 200 noise3))
    else if complexity < 7 / 10 then
      some (otSet (otSet (otSet [(0, 1), (1, 0), (2, 0), (3, 0)]
        1 (estimate_count 1 5 noise1))
        2 (estimate_count 5 20 noise2)) 3 (estimate_count 20 80 noise3))
    else
      some (otSet (otSet (otSet [(0, 1), (1, 0), (2, 0), (3, 0)]
        1 (estimate_count 0 3 noise1))
        2 (estimate_count 2 10 noise2)) 3 (estimate_count 10 40 noise3))

/-! ## Ranker (`rank.py`) -/

/-- The sort key of `rank_guides`: `(-efficiency_score, critical_offtargets,
start)` where `critical_offtargets` sums the 0-, 1- and 2-mismatch counts. -/
def sort_key (g : Guide) : ℚ × ℤ × ℤ :=
  (-g.efficiency_score,
   otGet g.off_targets 0 + otGet g.off_targets 1 + otGet g.off_targets 2,
   g.start)

/-- Python's `≤` on the 3-tuples produced by `sort_key`. -/
def tupleLE (a b : ℚ × ℤ × ℤ) : Prop :=
  a.1 < b.1 ∨ (a.1 = b.1 ∧ (a.2.1 < b.2.1 ∨ (a.2.1 = b.2.1 ∧ a.2.2 ≤ b.2.2)))

instance : ∀ a b, Decidable (tupleLE a b) := fun _ _ => by
  unfold tupleLE; infer_instance

/-- Guides ordered by their sort key. -/
def rankLE (g h : Guide) : Prop := tupleLE (sort_key g) (sort_key h)

instance : DecidableRel rankLE := fun _ _ => by
  unfold rankLE; infer_instance

/-- `rank_guides`: Python's `sorted` is a stable comparison sort on the key,
embedded as insertion sort on `rankLE`. -/
def rank_guides (guides : List Guide) : List Guide :=
  guides.insertionSort rankLE

/-! ## Helper lemmas about the motif scanner -/

/-- Every index reported by the regex scan lies at least at the start position
and leaves room for the full 3-character match inside the scanned list. -/
theorem pamScan_bound :
    ∀ {l : List Char} {i p : ℕ}, p ∈ pamScan l i → i ≤ p ∧ p + 3 ≤ i + l.length := by
  intro l i
  induction l, i using pamScan.induct with
  | case1 i => intro p hp; simp [pamScan] at hp
  | case2 c i => intro p hp; simp [pamScan] at hp
  | case3 c d i => intro p hp; simp [pamScan] at hp
  | case4 c1 c2 c3 rest i hcond ih =>
      intro p hp
      rw [pamScan, if_pos hcond] at hp
      rcases List.mem_cons.mp hp with h | h
      · subst h; simp only [List.length_cons]; omega
      · have := ih h; simp only [List.length_cons] at this ⊢; omega
  | case5 c1 c2 c3 rest i hcond ih =>
      intro p hp
      rw [pamScan, if_neg hcond] at hp
      have := ih hp
      simp only [List.length_cons] at this ⊢; omega

/-- Bound transported through `find_pam_sites`. -/
theorem find_pam_sites_bound {s : List Char} {pt : String} {p : ℕ}
    (hp : p ∈ find_pam_sites s pt) : p + 3 ≤ s.length := by
  unfold find_pam_sites at hp
  split_ifs at hp with h
  · have := (pamScan_bound hp).2
    simpa using this
  · simp at hp

/-- The reverse complement preserves length. -/
theorem reverseComplement_length (s : List Char) :
    (reverseComplement s).length = s.length := by
  simp [reverseComplement]

/-- A forward-strand window that would start before index 0 is rejected. -/
theorem extract_guide_sequence_plus_none {s : List Char} {p gl : ℕ} (h : p < gl) :
    extract_guide_sequence s p gl '+' = none := by
  unfold extract_guide_sequence
  simp [h]

/-- A successful forward-strand extraction needs a full upstream flank. -/
theorem extract_guide_sequence_plus_ge {s : List Char} {p gl : ℕ} {g : List Char}
    (h : extract_guide_sequence s p gl '+' = some g) : gl ≤ p := by
  by_contra hlt
  push_neg at hlt
  rw [extract_guide_sequence_plus_none hlt] at h
  exact Option.noConfusion h

/-- Unfolding a successful forward-strand loop body: the emitted guide's
fields. -/
theorem plusGuideAt_some {s : List Char} {ch : String} {sp : ℤ}
    {gn : Option String} {gl : ℕ} {af : Bool} {p : ℕ} {g : Guide}
    (h : plusGuideAt s ch sp gn gl af p = some g) :
    extract_guide_sequence s p gl '+' = some g.sequence ∧
    g.pam = (s.drop p).take 3 ∧ g.start = sp + p - gl ∧
    g.end_ = sp + p - 1 ∧ g.strand = '+' := by
  unfold plusGuideAt at h
  cases he : extract_guide_sequence s p gl '+' with
  | none => rw [he] at h; exact Option.noConfusion h
  | some gs =>
      rw [he] at h
      simp only at h
      split_ifs at h <;> (cases h; exact ⟨rfl, rfl, rfl, rfl, rfl⟩)

/-- Unfolding a successful reverse-strand loop body: the emitted guide's
fields, with coordinates expressed through `original_pam_pos`. -/
theorem minusGuideAt_some {s rc : List Char} {ch : String} {sp : ℤ}
    {gn : Option String} {gl : ℕ} {af : Bool} {p : ℕ} {g : Guide}
    (h : minusGuideAt s rc ch sp gn gl af p = some g) :
    extract_guide_sequence rc p gl '+' = some g.sequence ∧
    g.pam = (rc.drop p).take 3 ∧
    g.start = sp + ((s.length : ℤ) - p - 3) + 4 ∧
    g.end_ = sp + ((s.length : ℤ) - p - 3) + 3 + gl ∧ g.strand = '-' := by
  unfold minusGuideAt at h
  cases he : extract_guide_sequence rc p gl '+' with
  | none => rw [he] at h; exact Option.noConfusion h
  | some gs =>
      rw [he] at h
      simp only at h
      split_ifs at h <;> (cases h; exact ⟨rfl, rfl, rfl, rfl, rfl⟩)

/-- A failed extraction silences the forward-strand loop body. -/
theorem plusGuideAt_none {s : List Char} {ch : String} {sp : ℤ}
    {gn : Option String} {gl : ℕ} {af : Bool} {p : ℕ}
    (he : extract_guide_sequence s p gl '+' = none) :
    plusGuideAt s ch sp gn gl af p = none := by
  unfold plusGuideAt
  rw [he]

/-- A failed extraction silences the reverse-strand loop body. -/
theorem minusGuideAt_none {s rc : List Char} {ch : String} {sp : ℤ}
    {gn : Option String} {gl : ℕ} {af : Bool} {p : ℕ}
    (he : extract_guide_sequence rc p gl '+' = none) :
    minusGuideAt s rc ch sp gn gl af p = none := by
  unfold minusGuideAt
  rw [he]

/-- C8: a sequence shorter than `guide_length + 3` yields the empty guide list
on both strands, and an input with zero PAM motifs on either strand yields an
empty batch — never an error (the embedding is total). -/
theorem extract_guides_degenerate_empty (sequence : List Char) (ch : String)
    (sp : ℤ) (gn : Option String) (pt : String) (gl : ℕ) (af : Bool) :
    (sequence.length < gl + 3 → extract_guides sequence ch sp gn pt gl af = []) ∧
    (find_pam_sites (sequence.map pyUpper) pt = [] →
      find_pam_sites (reverseComplement (sequence.map pyUpper)) pt = [] →
      extract_guides sequence ch sp gn pt gl af = []) := by
  constructor
  · intro hlen
    unfold extract_guides
    rw [List.append_eq_nil]
    constructor
    · rw [List.filterMap_eq_nil_iff]
      intro p hp
      have hb := find_pam_sites_bound hp
      rw [List.length_map] at hb
      exact plusGuideAt_none (extract_guide_sequence_plus_none (by omega))
    · rw [List.filterMap_eq_nil_iff]
      intro p hp
      have hb := find_pam_sites_bound hp
      rw [reverseComplement_length, List.length_map] at hb
      exact minusGuideAt_none (extract_guide_sequence_plus_none (by omega))
  · intro h1 h2
    unfold extract_guides
    rw [h1, h2]
    simp

/-- Witness for C8: the 10-character Scenario-A prefix is shorter than
`20 + 3`, so extraction returns the empty list. -/
theorem extract_guides_degenerate_empty_witness :
    extract_guides (List.replicate 10 'A') "chr1" 1 none "SpCas9" 20 true = [] :=
  (extract_guides_degenerate_empty (List.replicate 10 'A') "chr1" 1 none
    "SpCas9" 20 true).1 (by decide)

/-- C9: every emitted guide, on either strand, spans exactly `guide_length`
bases (`end - start + 1 = guide_length`), and its start coordinate is at least
1 whenever `start_position ≥ 1`. -/
theorem extract_guides_span (sequence : List Char) (ch : String) (sp : ℤ)
    (gn : Option String) (pt : String) (gl : ℕ) (af : Bool) (g : Guide)
    (hg : g ∈ extract_guides sequence ch sp gn pt gl af) :
    g.end_ - g.start + 1 = (gl : ℤ) ∧ (1 ≤ sp → 1 ≤ g.start) := by
  unfold extract_guides at hg
  rcases List.mem_append.mp hg with h | h
  · obtain ⟨p, hp, he⟩ := List.mem_filterMap.mp h
    obtain ⟨hseq, _, hstart, hend, _⟩ := plusGuideAt_some he
    have hge : gl ≤ p := extract_guide_sequence_plus_ge hseq
    constructor
    · rw [hstart, hend]; ring
    · intro hsp
      rw [hstart]
      have hc : (gl : ℤ) ≤ p := by exact_mod_cast hge
      omega
  · obtain ⟨p, hp, he⟩ := List.mem_filterMap.mp h
    obtain ⟨hseq, _, hstart, hend, _⟩ := minusGuideAt_some he
    have hb := find_pam_sites_bound hp
    rw [reverseComplement_length, List.length_map] at hb
    constructor
    · rw [hstart, hend]; ring
    · intro hsp
      rw [hstart, List.length_map]
      have hc : (p : ℤ) + 3 ≤ (sequence.length : ℤ) := by exact_mod_cast hb
      omega

/-- Witness for C9: the single Scenario-A guide spans 20 bases and starts at a
coordinate ≥ 1. -/
theorem extract_guides_span_witness :
    ({ sequence := List.replicate 20 'A', pam := ['T', 'G', 'G'],
       chromosome := "chr1", start := 1, end_ := 20, strand := '+',
       efficiency_score := 0, off_targets := [(0, 0), (1, 0), (2, 0), (3, 0)],
       gc_content := 0, gene_name := none, exon := none } : Guide).end_ -
      ({ sequence := List.replicate 20 'A', pam := ['T', 'G', 'G'],
         chromosome := "chr1", start := 1, end_ := 20, strand := '+',
         efficiency_score := 0, off_targets := [(0, 0), (1, 0), (2, 0), (3, 0)],
         gc_content := 0, gene_name := none, exon := none } : Guide).start + 1 =
      (20 : ℤ) :=
  (extract_guides_span
    (List.replicate 20 'A' ++ ['T', 'G', 'G'] ++ List.replicate 10 'C')
    "chr1" 1 none "SpCas9" 20 false _ (by with_unfolding_all decide)).1

/-- C1: every minus-strand guide emitted by `extract_guides` arises from a PAM
hit at some reverse-complement index `rc_i`, and its genomic coordinates are
`start = start_position + orig_i + 4` and
`end = start_position + orig_i + 3 + guide_length` with
`orig_i = len(sequence) - rc_i - 3`, while its PAM is the 3-symbol window of
the reverse-complement string at `rc_i`. -/
theorem extract_guides_minus_strand_mapping (sequence : List Char) (ch : String)
    (sp : ℤ) (gn : Option String) (pt : String) (gl : ℕ) (af : Bool) (g : Guide)
    (hg : g ∈ extract_guides sequence ch sp gn pt gl af) (hstrand : g.strand = '-') :
    ∃ rc_i : ℕ, rc_i ∈ find_pam_sites (reverseComplement (sequence.map pyUpper)) pt ∧
      g.start = sp + ((sequence.length : ℤ) - rc_i - 3) + 4 ∧
      g.end_ = sp + ((sequence.length : ℤ) - rc_i - 3) + 3 + gl ∧
      g.pam = ((reverseComplement (sequence.map pyUpper)).drop rc_i).take 3 := by
  unfold extract_guides at hg
  rcases List.mem_append.mp hg with h | h
  · obtain ⟨p, hp, he⟩ := List.mem_filterMap.mp h
    obtain ⟨_, _, _, _, hplus⟩ := plusGuideAt_some he
    rw [hplus] at hstrand
    exact absurd hstrand (by decide)
  · obtain ⟨p, hp, he⟩ := List.mem_filterMap.mp h
    obtain ⟨_, hpam, hstart, hend, _⟩ := minusGuideAt_some he
    refine ⟨p, hp, ?_, ?_, hpam⟩
    · rw [hstart, List.length_map]
    · rw [hend, List.length_map]

/-- Witness for C1: the minus-strand guide extracted from `"CCA" + "T"*20`
(whose reverse complement is `"A"*20 + "TGG"`) satisfies the coordinate
mapping. -/
theorem extract_guides_minus_strand_mapping_witness :
    ∃ rc_i : ℕ,
      rc_i ∈ find_pam_sites
        (reverseComplement ((['C', 'C', 'A'] ++ List.replicate 20 'T').map pyUpper))
        "SpCas9" ∧
      ({ sequence := List.replicate 20 'A', pam := ['T', 'G', 'G'],
         chromosome := "chr1", start := 5, end_ := 24, strand := '-',
         efficiency_score := 0, off_targets := [(0, 0), (1, 0), (2, 0), (3, 0)],
         gc_content := 0, gene_name := none, exon := none } : Guide).start =
        1 + (((['C', 'C', 'A'] ++ List.replicate 20 'T').length : ℤ) - rc_i - 3) + 4 ∧
      ({ sequence := List.replicate 20 'A', pam := ['T', 'G', 'G'],
         chromosome := "chr1", start := 5, end_ := 24, strand := '-',
         efficiency_score := 0, off_targets := [(0, 0), (1, 0), (2, 0), (3, 0)],
         gc_content := 0, gene_name := none, exon := none } : Guide).end_ =
        1 + (((['C', 'C', 'A'] ++ List.replicate 20 'T').length : ℤ) - rc_i - 3) + 3 + 20 ∧
      ({ sequence := List.replicate 20 'A', pam := ['T', 'G', 'G'],
         chromosome := "chr1", start := 5, end_ := 24, strand := '-',
         efficiency_score := 0, off_targets := [(0, 0), (1, 0), (2, 0), (3, 0)],
         gc_content := 0, gene_name := none, exon := none } : Guide).pam =
        ((reverseComplement ((['C', 'C', 'A'] ++ List.replicate 20 'T').map pyUpper)).drop
          rc_i).take 3 :=
  extract_guides_minus_strand_mapping (['C', 'C', 'A'] ++ List.replicate 20 'T')
    "chr1" 1 none "SpCas9" 20 false _ (by with_unfolding_all decide) (by decide)

/-- C4 counterexample: under default filtering (`apply_filters = True`),
Scenario A produces no guide at all — the all-A window fails the GC-content
and homopolymer filters — so the batch is empty rather than containing one
plus-strand guide. -/
theorem scenario_A_default_filters_empty :
    extract_guides (List.replicate 20 'A' ++ ['T', 'G', 'G'] ++ List.replicate 10 'C')
      "chr1" 1 none "SpCas9" 20 true = [] := by
  with_unfolding_all decide

/-- C4 as amended: with quality filtering disabled, Scenario A yields exactly
one guide, a plus-strand guide with sequence `"A"*20`, PAM `"TGG"`, start 1,
end 20 — and no minus-strand guide. -/
theorem scenario_A_no_filters :
    extract_guides (List.replicate 20 'A' ++ ['T', 'G', 'G'] ++ List.replicate 10 'C')
      "chr1" 1 none "SpCas9" 20 false =
      [{ sequence := List.replicate 20 'A', pam := ['T', 'G', 'G'],
         chromosome := "chr1", start := 1, end_ := 20, strand := '+',
         efficiency_score := 0, off_targets := [(0, 0), (1, 0), (2, 0), (3, 0)],
         gc_content := 0, gene_name := none, exon := none }] := by
  with_unfolding_all decide

/-- C5: `passes_quality_filters` returns `False` exactly when the GC content
lies outside `[min_gc, max_gc]`, or some base among A, T, G, C has a
homopolymer run of length ≥ `max_homopolymer` (a replicate substring), or
`"TTTT"` occurs in the sequence. -/
theorem passes_quality_filters_false_iff (g : Guide) (min_gc max_gc : ℚ)
    (max_homopolymer : ℕ) :
    passes_quality_filters g min_gc max_gc max_homopolymer = false ↔
      (g.gc_content < min_gc ∨ max_gc < g.gc_content) ∨
      (∃ b ∈ (['A', 'T', 'G', 'C'] : List Char),
        List.replicate max_homopolymer b <:+: g.sequence) ∨
      ['T', 'T', 'T', 'T'] <:+: g.sequence := by
  unfold passes_quality_filters
  split_ifs with h1 h2 h3
  · simp only [eq_self_iff_true, true_iff]
    exact Or.inl h1
  · simp only [eq_self_iff_true, true_iff]
    obtain ⟨b, hb, hdec⟩ := List.any_eq_true.mp h2
    exact Or.inr (Or.inl ⟨b, hb, of_decide_eq_true hdec⟩)
  · simp only [eq_self_iff_true, true_iff]
    exact Or.inr (Or.inr h3)
  · simp only [Bool.true_eq_false, false_iff]
    rintro (h | ⟨b, hb, hinf⟩ | h)
    · exact h1 h
    · exact h2 (List.any_eq_true.mpr ⟨b, hb, decide_eq_true hinf⟩)
    · exact h3 h

/-- C7: the off-target estimator with its randomness source made explicit is a
function of the guide's sequence alone — two guides with the same sequence and
the same stubbed noise receive the identical off-target mapping. -/
theorem search_off_targets_sequence_determined (g1 g2 : Guide) (n1 n2 n3 : ℤ)
    (h : g1.sequence = g2.sequence) :
    search_off_targets g1 n1 n2 n3 = search_off_targets g2 n1 n2 n3 := by
  unfold search_off_targets
  rw [h]

/-- Witness for C7: two guides sharing a sequence but differing in chromosome,
coordinates and strand receive the same mapping under the same stubbed
noise. -/
theorem search_off_targets_sequence_determined_witness :
    search_off_targets
      { sequence := ['A', 'C', 'G', 'T', 'T', 'G', 'C', 'A', 'A', 'T', 'C', 'C',
                     'G', 'G', 'A', 'T', 'T', 'A', 'G', 'C'],
        pam := ['T', 'G', 'G'], chromosome := "chr1", start := 1, end_ := 20,
        strand := '+', efficiency_score := 0,
        off_targets := [(0, 0), (1, 0), (2, 0), (3, 0)], gc_content := 45,
        gene_name := none, exon := none } 0 0 0 =
    search_off_targets
      { sequence := ['A', 'C', 'G', 'T', 'T', 'G', 'C', 'A', 'A', 'T', 'C', 'C',
                     'G', 'G', 'A', 'T', 'T', 'A', 'G', 'C'],
        pam := ['A', 'G', 'G'], chromosome := "chr2", start := 500, end_ := 519,
        strand := '-', efficiency_score := 77,
        off_targets := [(0, 1), (1, 2), (2, 3), (3, 4)], gc_content := 45,
        gene_name := some "BRCA1", exon := some 3 } 0 0 0 :=
  search_off_targets_sequence_determined _ _ 0 0 0 rfl

/-! ## Ranker lemmas -/

/-- Python tuple `≤` is reflexive. -/
theorem tupleLE_refl (a : ℚ × ℤ × ℤ) : tupleLE a a :=
  Or.inr ⟨rfl, Or.inr ⟨rfl, le_refl _⟩⟩

/-- Python tuple `≤` is total. -/
theorem tupleLE_total (a b : ℚ × ℤ × ℤ) : tupleLE a b ∨ tupleLE b a := by
  rcases lt_trichotomy a.1 b.1 with h | h | h
  · exact Or.inl (Or.inl h)
  · rcases lt_trichotomy a.2.1 b.2.1 with h2 | h2 | h2
    · exact Or.inl (Or.inr ⟨h, Or.inl h2⟩)
    · rcases le_total a.2.2 b.2.2 with h3 | h3
      · exact Or.inl (Or.inr ⟨h, Or.inr ⟨h2, h3⟩⟩)
      · exact Or.inr (Or.inr ⟨h.symm, Or.inr ⟨h2.symm, h3⟩⟩)
    · exact Or.inr (Or.inr ⟨h.symm, Or.inl h2⟩)
  · exact Or.inr (Or.inl h)

/-- Python tuple `≤` is transitive. -/
theorem tupleLE_trans {a b c : ℚ × ℤ × ℤ} (hab : tupleLE a b) (hbc : tupleLE b c) :
    tupleLE a c := by
  rcases hab with h1 | ⟨e1, h1⟩
  · rcases hbc with h2 | ⟨e2, h2⟩
    · exact Or.inl (h1.trans h2)
    · exact Or.inl (lt_of_lt_of_le h1 (le_of_eq e2))
  · rcases hbc with h2 | ⟨e2, h2⟩
    · exact Or.inl (lt_of_le_of_lt (le_of_eq e1) h2)
    · refine Or.inr ⟨e1.trans e2, ?_⟩
      rcases h1 with h1 | ⟨f1, h1⟩
      · rcases h2 with h2 | ⟨f2, h2⟩
        · exact Or.inl (h1.trans h2)
        · exact Or.inl (lt_of_lt_of_le h1 (le_of_eq f2))
      · rcases h2 with h2 | ⟨f2, h2⟩
        · exact Or.inl (lt_of_le_of_lt (le_of_eq f1) h2)
        · exact Or.inr ⟨f1.trans f2, h1.trans h2⟩

instance : IsTotal Guide rankLE := ⟨fun x y => tupleLE_total (sort_key x) (sort_key y)⟩

instance : IsTrans Guide rankLE := ⟨fun _ _ _ => tupleLE_trans⟩

/-- Incomparability under the sort order forces distinct keys. -/
theorem not_rankLE_key_ne {a b : Guide} (h : ¬rankLE a b) :
    sort_key b ≠ sort_key a := by
  intro he
  apply h
  unfold rankLE
  rw [he]
  exact tupleLE_refl _

/-- Inserting `a` into a list places it in front of every element sharing its
sort key. -/
theorem filter_orderedInsert_key_eq (a : Guide) (l : List Guide) :
    (l.orderedInsert rankLE a).filter (fun x => decide (sort_key x = sort_key a)) =
      a :: l.filter (fun x => decide (sort_key x = sort_key a)) := by
  induction l with
  | nil => simp [List.orderedInsert]
  | cons b t ih =>
      rw [List.orderedInsert]
      by_cases hr : rankLE a b
      · rw [if_pos hr, List.filter_cons]
        simp
      · rw [if_neg hr, List.filter_cons, List.filter_cons]
        have hne : sort_key b ≠ sort_key a := not_rankLE_key_ne hr
        simp [hne, ih]

/-- Insertion of `a` leaves the elements of every other key class untouched. -/
theorem filter_orderedInsert_key_ne (a : Guide) (l : List Guide)
    (k : ℚ × ℤ × ℤ) (hk : sort_key a ≠ k) :
    (l.orderedInsert rankLE a).filter (fun x => decide (sort_key x = k)) =
      l.filter (fun x => decide (sort_key x = k)) := by
  induction l with
  | nil => simp [List.orderedInsert, List.filter_cons, hk]
  | cons b t ih =>
      rw [List.orderedInsert]
      by_cases hr : rankLE a b
      · rw [if_pos hr, List.filter_cons]
        simp [hk]
      · rw [if_neg hr, List.filter_cons, List.filter_cons]
        by_cases hb : sort_key b = k <;> simp [hb, ih]

/-- Stability of the embedded sort: each key class of the output is the key
class of the input, in input order. -/
theorem filter_insertionSort_key (l : List Guide) (k : ℚ × ℤ × ℤ) :
    (l.insertionSort rankLE).filter (fun x => decide (sort_key x = k)) =
      l.filter (fun x => decide (sort_key x = k)) := by
  induction l with
  | nil => rfl
  | cons a t ih =>
      rw [List.insertionSort]
      by_cases ha : sort_key a = k
      · subst ha
        rw [filter_orderedInsert_key_eq, ih, List.filter_cons]
        simp
      · rw [filter_orderedInsert_key_ne a _ k ha, ih, List.filter_cons]
        simp [ha]

/-- C3: `rank_guides` returns a permutation of its input that is sorted
ascending on `(-efficiency_score, critical_offtargets, start)`; the sort is
stable (each sort-key class appears in input order), and ranking an already
ranked list changes nothing, so repeated calls agree. -/
theorem rank_guides_spec (guides : List Guide) :
    (rank_guides guides).Perm guides ∧
    List.Sorted rankLE (rank_guides guides) ∧
    (∀ k : ℚ × ℤ × ℤ,
      (rank_guides guides).filter (fun x => decide (sort_key x = k)) =
        guides.filter (fun x => decide (sort_key x = k))) ∧
    rank_guides (rank_guides guides) = rank_guides guides :=
  ⟨List.perm_insertionSort rankLE guides,
   List.sorted_insertionSort rankLE guides,
   fun k => filter_insertionSort_key guides k,
   List.Sorted.insertionSort_eq (List.sorted_insertionSort rankLE guides)⟩

/-! ## Efficiency predictor lemmas -/

/-- Unfolding of the position-preference feature on a nonempty sequence. -/
theorem score_position_preferences_append_some (c0 : Char) (t : List Char) (c : Char) :
    score_position_preferences ((c0 :: t) ++ [c]) =
      some ((if 20 ≤ ((c0 :: t) ++ [c]).length then
               (if ((c0 :: t) ++ [c]).getD 18 ' ' = 'G' then 2 else 0) +
               (if ((c0 :: t) ++ [c]).getD 19 ' ' = 'G' then 2 else 0)
             else 0) +
            (if c0 = 'C' then 1 else 0)) := rfl

/-- On a sequence of length at least 20, every feature of `predict_efficiency`
is defined and the result is the clamped, rounded raw score. -/
theorem predict_efficiency_eq_raw (gc_content : ℚ) (s : List Char)
    (h : 19 < s.length) :
    predict_efficiency gc_content s =
      some (pyRound1 (max 0 (min 100 (rawScore gc_content s)))) := by
  obtain ⟨p, hp⟩ : ∃ p, score_position_preferences s = some p := by
    cases s with
    | nil => simp at h
    | cons a t => exact ⟨_, rfl⟩
  obtain ⟨sd, hsd⟩ : ∃ x, score_seed_region (s.take 12) = some x := by
    have hne : (s.take 12).length ≠ 0 := by
      rw [List.length_take]; omega
    unfold score_seed_region
    rw [if_neg hne]
    exact ⟨_, rfl⟩
  obtain ⟨pp, hpp⟩ : ∃ x, score_pam_proximal (s.drop (s.length - 8)) = some x := by
    have hne : (s.drop (s.length - 8)).length ≠ 0 := by
      rw [List.length_drop]; omega
    unfold score_pam_proximal
    rw [if_neg hne]
    exact ⟨_, rfl⟩
  unfold predict_efficiency rawScore
  rw [hp, hsd, hpp]
  simp only [Option.some_bind, Option.getD_some, if_pos h]

/-- C10: on the scanner's invariant — a 20-symbol guide sequence over
{A, C, G, T} — `predict_efficiency` is total: every index access and every
divisor is in range, so the embedded error branch (`none`) is unreachable. -/
theorem predict_efficiency_total (g : Guide) (hlen : g.sequence.length = 20)
    (halpha : ∀ c ∈ g.sequence, c = 'A' ∨ c = 'C' ∨ c = 'G' ∨ c = 'T') :
    ∃ q, predict_efficiency g.gc_content g.sequence = some q :=
  ⟨_, predict_efficiency_eq_raw g.gc_content g.sequence (by omega)⟩

/-- Witness for C10: the predictor succeeds on a concrete 20-mer guide. -/
theorem predict_efficiency_total_witness :
    ∃ q, predict_efficiency (45 : ℚ)
      ['A', 'C', 'G', 'T', 'T', 'G', 'C', 'A', 'A', 'T', 'C', 'C',
       'G', 'G', 'A', 'T', 'T', 'A', 'G', 'C'] = some q :=
  predict_efficiency_total
    { sequence := ['A', 'C', 'G', 'T', 'T', 'G', 'C', 'A', 'A', 'T', 'C', 'C',
                   'G', 'G', 'A', 'T', 'T', 'A', 'G', 'C'],
      pam := ['T', 'G', 'G'], chromosome := "chr1", start := 1, end_ := 20,
      strand := '+', efficiency_score := 0,
      off_targets := [(0, 0), (1, 0), (2, 0), (3, 0)], gc_content := 45,
      gene_name := none, exon := none } (by decide) (by decide)

/-- C2 counterexample: two 20-mers identical except for the final symbol
(G versus A) whose efficiency scores differ by 7.0, not 2.0 — the final G also
earns the position-20 preference bonus and flips the PAM-proximal GC term. -/
theorem predict_terminal_G_not_two :
    predict_efficiency 50
        (['A', 'C', 'A', 'C', 'A', 'C', 'A', 'C', 'A', 'C', 'A', 'C', 'A', 'C',
          'A', 'C', 'A', 'C', 'A'] ++ ['G']) = some 69 ∧
    predict_efficiency 50
        (['A', 'C', 'A', 'C', 'A', 'C', 'A', 'C', 'A', 'C', 'A', 'C', 'A', 'C',
          'A', 'C', 'A', 'C', 'A'] ++ ['A']) = some 62 ∧
    ¬((69 : ℚ) - 62 = 2 ∨ (62 : ℚ) - 69 = 2) := by
  refine ⟨?_, ?_, by norm_num⟩ <;> with_unfolding_all decide

/-- Shifting a rational by 4 shifts its half-even rounding to one decimal
place by 4. -/
theorem pyRoundInt_add_forty (x : ℚ) : pyRoundInt (x + 40) = pyRoundInt x + 40 := by
  unfold pyRoundInt
  have hfl : ⌊x + (40 : ℚ)⌋ = ⌊x⌋ + 40 := by
    exact_mod_cast Int.floor_add_int x 40
  rw [hfl]
  have hfrac : x + 40 - ((⌊x⌋ + 40 : ℤ) : ℚ) = x - ⌊x⌋ := by
    push_cast; ring
  rw [hfrac]
  split_ifs <;> omega

/-- `round(q + 4, 1) = round(q, 1) + 4`. -/
theorem pyRound1_add_four (q : ℚ) : pyRound1 (q + 4) = pyRound1 q + 4 := by
  unfold pyRound1
  have h : (q + 4) * 10 = q * 10 + 40 := by ring
  rw [h, pyRoundInt_add_forty]
  push_cast
  ring

/-- C2 as amended: for two otherwise-identical 20-symbol sequences differing
only in the last symbol (G versus A), with equal `gc_content` and under the
side conditions the counterexample shows are necessary — the PAM-proximal term
and the homopolymer penalty unchanged by the substitution, and neither score
clamped — the efficiency scores differ by exactly 4.0: the terminal-G bonus
(+2) plus the position-20 preference bonus (+2), not 2.0. -/
theorem predict_terminal_G_bonus_amended (gc_content : ℚ) (t : List Char)
    (hlen : t.length = 19)
    (hpam : score_pam_proximal ((t ++ ['G']).drop ((t ++ ['G']).length - 8)) =
      score_pam_proximal ((t ++ ['A']).drop ((t ++ ['A']).length - 8)))
    (hhomo : penalize_homopolymers (t ++ ['G']) = penalize_homopolymers (t ++ ['A']))
    (h0 : 0 ≤ rawScore gc_content (t ++ ['A']))
    (h96 : rawScore gc_content (t ++ ['A']) ≤ 96) :
    ∃ x y, predict_efficiency gc_content (t ++ ['G']) = some x ∧
      predict_efficiency gc_content (t ++ ['A']) = some y ∧ x - y = 4 := by
  obtain ⟨c0, t', rfl⟩ : ∃ c0 t', t = c0 :: t' := by
    cases t with
    | nil => simp at hlen
    | cons a b => exact ⟨a, b, rfl⟩
  have hl19 : (c0 :: t').length = 19 := hlen
  have ht18 : t'.length = 18 := by simpa using hl19
  have hraw : rawScore gc_content ((c0 :: t') ++ ['G']) =
      rawScore gc_content ((c0 :: t') ++ ['A']) + 4 := by
    unfold rawScore
    rw [score_position_preferences_append_some, score_position_preferences_append_some,
      Option.getD_some, Option.getD_some]
    have hlG : ((c0 :: t') ++ ['G']).length = 20 := by
      simp [ht18]
    have hlA : ((c0 :: t') ++ ['A']).length = 20 := by
      simp [ht18]
    rw [hlG, hlA, if_pos (by omega : (20 : ℕ) ≤ 20)]
    have h18G : ((c0 :: t') ++ ['G']).getD 18 ' ' = (c0 :: t').getD 18 ' ' :=
      List.getD_append _ _ _ 18 (by omega)
    have h18A : ((c0 :: t') ++ ['A']).getD 18 ' ' = (c0 :: t').getD 18 ' ' :=
      List.getD_append _ _ _ 18 (by omega)
    have h19G : ((c0 :: t') ++ ['G']).getD 19 ' ' = 'G' := by
      rw [List.getD_append_right _ _ _ 19 (by omega), hl19]
      decide
    have h19A : ((c0 :: t') ++ ['A']).getD 19 ' ' = 'A' := by
      rw [List.getD_append_right _ _ _ 19 (by omega), hl19]
      decide
    rw [hlG, hlA] at hpam
    have htkG : ((c0 :: t') ++ ['G']).take 12 = (c0 :: t').take 12 :=
      List.take_append_of_le_length (by omega)
    have htkA : ((c0 :: t') ++ ['A']).take 12 = (c0 :: t').take 12 :=
      List.take_append_of_le_length (by omega)
    rw [h18G, h18A, h19G, h19A, htkG, htkA, hpam, hhomo]
    rw [if_pos (by omega : (20 : ℕ) ≤ 20)]
    rw [if_neg (by decide : ('A' : Char) ≠ 'G')]
    rw [if_pos (rfl : ('G' : Char) = 'G')]
    ring
  refine ⟨_, _, predict_efficiency_eq_raw _ _ (by simp [ht18]),
    predict_efficiency_eq_raw _ _ (by simp [ht18]), ?_⟩
  rw [hraw]
  rw [min_eq_right (by linarith), min_eq_right (by linarith),
    max_eq_right (by linarith), max_eq_right (by linarith)]
  rw [pyRound1_add_four]
  ring

/-- Witness for the amended C2: a concrete pair (`"ACGTACGTACGTGCGCGCAer"` with
terminal G versus terminal A) satisfying the side conditions, with scores 69.0
and 65.0. -/
theorem predict_terminal_G_bonus_amended_witness :
    ∃ x y, predict_efficiency 50
        (['A', 'C', 'G', 'T', 'A', 'C', 'G', 'T', 'A', 'C', 'G', 'T', 'G', 'C',
          'G', 'C', 'G', 'C', 'A'] ++ ['G']) = some x ∧
      predict_efficiency 50
        (['A', 'C', 'G', 'T', 'A', 'C', 'G', 'T', 'A', 'C', 'G', 'T', 'G', 'C',
          'G', 'C', 'G', 'C', 'A'] ++ ['A']) = some y ∧ x - y = 4 :=
  predict_terminal_G_bonus_amended 50
    ['A', 'C', 'G', 'T', 'A', 'C', 'G', 'T', 'A', 'C', 'G', 'T', 'G', 'C',
     'G', 'C', 'G', 'C', 'A'] (by decide)
    (by with_unfolding_all decide) (by with_unfolding_all decide)
    (by with_unfolding_all decide) (by with_unfolding_all decide)

/-! ## Off-target estimator lemmas -/

/-- On sequences of length at least 4 neither divisor of the complexity score
vanishes, so no `ZeroDivisionError` is raised. -/
theorem calculate_complexity_some (s : List Char) (h : 4 ≤ s.length) :
    calculate_complexity s = some (complexityVal s) := by
  unfold calculate_complexity
  have h4 : (4 : ℤ) ≤ (s.length : ℤ) := by exact_mod_cast h
  rw [if_neg (by omega), if_neg (by omega)]

/-- C6 as amended: on any guide sequence of length ≥ 4 (the Guide invariant
gives length 20), `search_off_targets` succeeds and returns a mapping with
exactly the keys `[0, 1, 2, 3]` in order, value `1` at key 0, and at keys 1,
2, 3 the value `int((min + max) / 2 + noise)` — Python truncation of the
bucket midpoint plus noise, not the exact rational `(min + max) / 2 + noise` —
with the `(min, max)` ranges `(5,15)/(20,50)/(80,200)` when the complexity
score is below 0.5, `(1,5)/(5,20)/(20,80)` when it is below 0.7, and
`(0,3)/(2,10)/(10,40)` otherwise. -/
theorem search_off_targets_spec (g : Guide) (n1 n2 n3 : ℤ)
    (h : 4 ≤ g.sequence.length) :
    ∃ m, search_off_targets g n1 n2 n3 = some m ∧
      otKeys m = [0, 1, 2, 3] ∧ otGet m 0 = 1 ∧
      (complexityVal g.sequence < 1 / 2 →
        otGet m 1 = estimate_count 5 15 n1 ∧
        otGet m 2 = estimate_count 20 50 n2 ∧
        otGet m 3 = estimate_count 80 200 n3) ∧
      (¬complexityVal g.sequence < 1 / 2 → complexityVal g.sequence < 7 / 10 →
        otGet m 1 = estimate_count 1 5 n1 ∧
        otGet m 2 = estimate_count 5 20 n2 ∧
        otGet m 3 = estimate_count 20 80 n3) ∧
      (¬complexityVal g.sequence < 1 / 2 → ¬complexityVal g.sequence < 7 / 10 →
        otGet m 1 = estimate_count 0 3 n1 ∧
        otGet m 2 = estimate_count 2 10 n2 ∧
        otGet m 3 = estimate_count 10 40 n3) := by
  unfold search_off_targets
  rw [calculate_complexity_some g.sequence h]
  simp only [Option.some_bind]
  by_cases h1 : complexityVal g.sequence < 1 / 2
  · rw [if_pos h1]
    refine ⟨_, rfl, by simp [otKeys, otSet], by simp [otGet, otSet], ?_, ?_, ?_⟩
    · intro _
      refine ⟨?_, ?_, ?_⟩ <;> simp [otGet, otSet]
    · intro hcon _
      exact absurd h1 hcon
    · intro hcon _
      exact absurd h1 hcon
  · rw [if_neg h1]
    by_cases h2 : complexityVal g.sequence < 7 / 10
    · rw [if_pos h2]
      refine ⟨_, rfl, by simp [otKeys, otSet], by simp [otGet, otSet], ?_, ?_, ?_⟩
      · intro hcon
        exact absurd hcon h1
      · intro _ _
        refine ⟨?_, ?_, ?_⟩ <;> simp [otGet, otSet]
      · intro _ hcon
        exact absurd h2 hcon
    · rw [if_neg h2]
      refine ⟨_, rfl, by simp [otKeys, otSet], by simp [otGet, otSet], ?_, ?_, ?_⟩
      · intro hcon
        exact absurd hcon h1
      · intro _ hcon
        exact absurd hcon h2
      · intro _ _
        refine ⟨?_, ?_, ?_⟩ <;> simp [otGet, otSet]

/-- Witness for the amended C6: the estimator on a concrete complexity-1
20-mer with stubbed noise `(1, -2, 2)`. -/
theorem search_off_targets_spec_witness :
    ∃ m, search_off_targets
      { sequence := ['A', 'C', 'G', 'T', 'T', 'G', 'C', 'A', 'A', 'T', 'C', 'C',
                     'G', 'G', 'A', 'T', 'T', 'A', 'G', 'C'],
        pam := ['T', 'G', 'G'], chromosome := "chr1", start := 1, end_ := 20,
        strand := '+', efficiency_score := 0,
        off_targets := [(0, 0), (1, 0), (2, 0), (3, 0)], gc_content := 45,
        gene_name := none, exon := none } 1 (-2) 2 = some m ∧
      otKeys m = [0, 1, 2, 3] ∧ otGet m 0 = 1 ∧
      (complexityVal ['A', 'C', 'G', 'T', 'T', 'G', 'C', 'A', 'A', 'T', 'C', 'C',
          'G', 'G', 'A', 'T', 'T', 'A', 'G', 'C'] < 1 / 2 →
        otGet m 1 = estimate_count 5 15 1 ∧
        otGet m 2 = estimate_count 20 50 (-2) ∧
        otGet m 3 = estimate_count 80 200 2) ∧
      (¬complexityVal ['A', 'C', 'G', 'T', 'T', 'G', 'C', 'A', 'A', 'T', 'C', 'C',
          'G', 'G', 'A', 'T', 'T', 'A', 'G', 'C'] < 1 / 2 →
        complexityVal ['A', 'C', 'G', 'T', 'T', 'G', 'C', 'A', 'A', 'T', 'C', 'C',
          'G', 'G', 'A', 'T', 'T', 'A', 'G', 'C'] < 7 / 10 →
        otGet m 1 = estimate_count 1 5 1 ∧
        otGet m 2 = estimate_count 5 20 (-2) ∧
        otGet m 3 = estimate_count 20 80 2) ∧
      (¬complexityVal ['A', 'C', 'G', 'T', 'T', 'G', 'C', 'A', 'A', 'T', 'C', 'C',
          'G', 'G', 'A', 'T', 'T', 'A', 'G', 'C'] < 1 / 2 →
        ¬complexityVal ['A', 'C', 'G', 'T', 'T', 'G', 'C', 'A', 'A', 'T', 'C', 'C',
          'G', 'G', 'A', 'T', 'T', 'A', 'G', 'C'] < 7 / 10 →
        otGet m 1 = estimate_count 0 3 1 ∧
        otGet m 2 = estimate_count 2 10 (-2) ∧
        otGet m 3 = estimate_count 10 40 2) :=
  search_off_targets_spec
    { sequence := ['A', 'C', 'G', 'T', 'T', 'G', 'C', 'A', 'A', 'T', 'C', 'C',
                   'G', 'G', 'A', 'T', 'T', 'A', 'G', 'C'],
      pam := ['T', 'G', 'G'], chromosome := "chr1", start := 1, end_ := 20,
      strand := '+', efficiency_score := 0,
      off_targets := [(0, 0), (1, 0), (2, 0), (3, 0)], gc_content := 45,
      gene_name := none, exon := none } 1 (-2) 2 (by decide)

/-- C6 counterexample: on a concrete high-complexity 20-mer (complexity 1,
bucket `(0, 3)` for 1 mismatch) with the noise stubbed to 0, the 1-mismatch
count is `int((0 + 3) / 2 + 0) = 1`, which differs from the exact rational
`(0 + 3) / 2 + noise` for every noise in {−2, −1, 0, 1, 2}. -/
theorem search_off_targets_not_midpoint :
    calculate_complexity ['A', 'C', 'G', 'T', 'T', 'G', 'C', 'A', 'A', 'T', 'C',
      'C', 'G', 'G', 'A', 'T', 'T', 'A', 'G', 'C'] = some 1 ∧
    ¬((1 : ℚ) < 1 / 2) ∧ ¬((1 : ℚ) < 7 / 10) ∧
    search_off_targets
      { sequence := ['A', 'C', 'G', 'T', 'T', 'G', 'C', 'A', 'A', 'T', 'C', 'C',
                     'G', 'G', 'A', 'T', 'T', 'A', 'G', 'C'],
        pam := ['T', 'G', 'G'], chromosome := "chr1", start := 1, end_ := 20,
        strand := '+', efficiency_score := 0,
        off_targets := [(0, 0), (1, 0), (2, 0), (3, 0)], gc_content := 45,
        gene_name := none, exon := none } 0 0 0 =
      some [(0, 1), (1, 1), (2, 6), (3, 25)] ∧
    otGet [(0, 1), (1, 1), (2, 6), (3, 25)] 1 = 1 ∧
    (((1 : ℤ) : ℚ) ≠ ((0 : ℚ) + 3) / 2 + ((-2 : ℤ) : ℚ) ∧
     ((1 : ℤ) : ℚ) ≠ ((0 : ℚ) + 3) / 2 + ((-1 : ℤ) : ℚ) ∧
     ((1 : ℤ) : ℚ) ≠ ((0 : ℚ) + 3) / 2 + ((0 : ℤ) : ℚ) ∧
     ((1 : ℤ) : ℚ) ≠ ((0 : ℚ) + 3) / 2 + ((1 : ℤ) : ℚ) ∧
     ((1 : ℤ) : ℚ) ≠ ((0 : ℚ) + 3) / 2 + ((2 : ℤ) : ℚ)) := by
  refine ⟨?_, by norm_num, by norm_num, ?_, ?_, by norm_num⟩
  · with_unfolding_all decide
  · with_unfolding_all decide
  · with_unfolding_all decide

end Crispex
